import Mathlib

/-!
Verification development for the job-orchestration and progress-tracking core
of the dockerised music-analysis service (`src/api`).

The Python source is shallowly embedded: pure computations become Lean
functions on `ℚ`, `List` and `Option`; dictionary state becomes explicit
record/list passing; a `raise` becomes `Except.error`.  Machine floats of the
source are modelled as exact rationals (no claim below depends on float
rounding ties), and wall-clock readings (`time.time()`) are passed in as
explicit parameters.
-/

/-! ## Progress tracker (src/api/services/progress_tracker.py) -/

/-- The `AnalysisStep` string enum (progress_tracker.py lines 15-26), in its
definition order. -/
inductive AnalysisStep where
  | initializing
  | loading_model
  | audio_separation
  | spectrogram_extraction
  | feature_extraction
  | beat_tracking
  | segment_analysis
  | generating_results
  | saving_outputs
  | completed
deriving DecidableEq, Repr

/-- The Python string value of each enum member (progress_tracker.py 17-26). -/
def AnalysisStep.value : AnalysisStep → String
  | .initializing => "initializing"
  | .loading_model => "loading_model"
  | .audio_separation => "audio_separation"
  | .spectrogram_extraction => "spectrogram_extraction"
  | .feature_extraction => "feature_extraction"
  | .beat_tracking => "beat_tracking"
  | .segment_analysis => "segment_analysis"
  | .generating_results => "generating_results"
  | .saving_outputs => "saving_outputs"
  | .completed => "completed"

/-- Iteration order of `for step in AnalysisStep` (the enum definition order,
progress_tracker.py 15-26). -/
def allSteps : List AnalysisStep :=
  [.initializing, .loading_model, .audio_separation, .spectrogram_extraction,
   .feature_extraction, .beat_tracking, .segment_analysis, .generating_results,
   .saving_outputs, .completed]

/-- Python `a.value < b.value`: lexicographic comparison of the enum value
strings by code point, as written in `_calculate_overall_progress` (line 158)
and `_estimate_remaining_time` (line 194).  Lean's `String` order is exactly
the lexicographic order on the underlying character lists, which is compared
here directly. -/
def pyLt (a b : AnalysisStep) : Bool :=
  decide (a.value.data < b.value.data)

/-- Python `round(x, 1)` modelled on exact rationals.  The source rounds a
machine float; no input appearing in the claims sits on a rounding tie, so the
tie-breaking rule is immaterial here. -/
def pyRound1 (x : ℚ) : ℚ :=
  (⌊10 * x + 1/2⌋ : ℚ) / 10

/-- The `step_weights` dict literal of `_calculate_overall_progress`
(progress_tracker.py 139-150), in its insertion order. -/
def stepWeightList : List (AnalysisStep × ℚ) :=
  [(.initializing, 2/100), (.loading_model, 15/100), (.audio_separation, 25/100),
   (.spectrogram_extraction, 15/100), (.feature_extraction, 8/100),
   (.beat_tracking, 15/100), (.segment_analysis, 15/100),
   (.generating_results, 3/100), (.saving_outputs, 2/100), (.completed, 1)]

/-- The accumulation loop of `_calculate_overall_progress` (lines 153-159):
walk `step_weights` in insertion order; at the current step add
`weight * step_progress / 100` and `break`; before that add `weight` whenever
`step.value < current_step.value` (a string comparison). -/
def calcLoop : List (AnalysisStep × ℚ) → AnalysisStep → ℚ → ℚ
  | [], _, _ => 0
  | (s, w) :: rest, cur, p =>
    if s = cur then w * (p / 100)
    else (if pyLt s cur then w else 0) + calcLoop rest cur p

/-- `ProgressTracker._calculate_overall_progress` (lines 136-161):
the loop total times 100, rounded to one decimal. -/
def calculate_overall_progress (cur : AnalysisStep) (stepProgress : ℚ) : ℚ :=
  pyRound1 (calcLoop stepWeightList cur stepProgress * 100)

/-- The progress-relevant mutable state of a `ProgressTracker`
(progress_tracker.py 31-37); timestamps are carried separately as explicit
parameters where a claim needs them. -/
structure Tracker where
  current_step : AnalysisStep
  step_progress : ℚ
  overall_progress : ℚ
deriving DecidableEq, Repr

/-- Constructor state (lines 34-36): step `INITIALIZING`, progress 0. -/
def Tracker.init : Tracker :=
  ⟨.initializing, 0, 0⟩

/-- `ProgressTracker.update_step` (lines 104-118): unconditionally overwrite
the current step, clamp the step progress into [0, 100], recompute the overall
progress.  No comparison with the previous step is performed. -/
def update_step (t : Tracker) (step : AnalysisStep) (stepProgress : ℚ) : Tracker :=
  let sp := max 0 (min 100 stepProgress)
  { t with
    current_step := step
    step_progress := sp
    overall_progress := calculate_overall_progress step sp }

/-- `ProgressTracker.update_step_progress` (lines 131-134). -/
def update_step_progress (t : Tracker) (p : ℚ) : Tracker :=
  let sp := max 0 (min 100 p)
  { t with
    step_progress := sp
    overall_progress := calculate_overall_progress t.current_step sp }

/-- `ProgressTracker.complete` (lines 210-212): `update_step(COMPLETED, 100.0)`. -/
def Tracker.complete (t : Tracker) : Tracker :=
  update_step t .completed 100

/-- The `step_estimates` dict (progress_tracker.py 38-48); `COMPLETED` has no
entry, and every read goes through `.get(step, (0, 0))`, so it is modelled as
the default `(0, 0)`. -/
def stepEstimates : AnalysisStep → ℚ × ℚ
  | .initializing => (1, 2)
  | .loading_model => (5, 15)
  | .audio_separation => (10, 30)
  | .spectrogram_extraction => (5, 15)
  | .feature_extraction => (3, 8)
  | .beat_tracking => (5, 12)
  | .segment_analysis => (8, 20)
  | .generating_results => (2, 5)
  | .saving_outputs => (1, 3)
  | .completed => (0, 0)

/-- Mid-point of a step's expected-duration range. -/
def stepMid (s : AnalysisStep) : ℚ :=
  ((stepEstimates s).1 + (stepEstimates s).2) / 2

/-- `ProgressTracker._estimate_remaining_time` (lines 181-208), as the number
of seconds it computes (the source further renders this number as a Chinese
duration string; that formatting is presentation only).  `stepElapsed` stands
for `time.time() - self.step_start_time`.  The remaining-steps sum iterates
`for step in AnalysisStep` and keeps the steps with `step.value >
self.current_step.value` — again a string comparison. -/
def estimate_remaining_time (cur : AnalysisStep) (stepElapsed : ℚ) : Option ℚ :=
  if cur = .completed then none
  else
    let mm := stepEstimates cur
    let stepRemaining := max 0 ((mm.1 + mm.2) / 2 - stepElapsed)
    let remainingStepsTime :=
      allSteps.foldl
        (fun acc s => if pyLt cur s then acc + ((stepEstimates s).1 + (stepEstimates s).2) / 2 else acc) 0
    let total := stepRemaining + remainingStepsTime
    if 0 < total then some total else none

/-! ### Spec-side progress definitions

These definitions follow the specification text (spec §4.2) rather than the
source; they exist only so that claims comparing the code with the spec can be
stated and refuted/confirmed. -/

/-- Modelled from the spec: the declared phase list
`Initializing(0.02) → LoadingModel(0.15) → Separation(0.25) →
FeatureExtraction(0.15) → BeatTracking(0.15) → SegmentAnalysis(0.15) →
GeneratingResults(0.03) → SavingOutputs(0.02)` of spec §4.2 with its weights,
identified with the source enum members of the same meaning. -/
def spec_phaseWeights : List (AnalysisStep × ℚ) :=
  [(.initializing, 2/100), (.loading_model, 15/100), (.audio_separation, 25/100),
   (.feature_extraction, 15/100), (.beat_tracking, 15/100),
   (.segment_analysis, 15/100), (.generating_results, 3/100),
   (.saving_outputs, 2/100)]

/-- Modelled from the spec: overall progress per spec §4.2 — the sum of the
weights of all phases strictly before the current phase in the declared order,
plus the current phase weight times the phase-local progress / 100, as a
percentage rounded to one decimal, with Completed forcing 100. -/
def spec_overall_progress (cur : AnalysisStep) (p : ℚ) : ℚ :=
  if cur = .completed then 100
  else
    pyRound1
      ((((spec_phaseWeights.takeWhile (fun q => q.1 ≠ cur)).map Prod.snd).sum
        + ((spec_phaseWeights.lookup cur).getD 0) * p / 100) * 100)

/-- The weight table of `_calculate_overall_progress` as a function (same
numbers as `stepWeightList`). -/
def codeWeight : AnalysisStep → ℚ
  | .initializing => 2/100
  | .loading_model => 15/100
  | .audio_separation => 25/100
  | .spectrogram_extraction => 15/100
  | .feature_extraction => 8/100
  | .beat_tracking => 15/100
  | .segment_analysis => 15/100
  | .generating_results => 3/100
  | .saving_outputs => 2/100
  | .completed => 1

/-- The amended statement of claim C4: overall progress equals the sum of the
code weights of the phases that both precede the current phase in the enum
declaration order and have a lexicographically smaller enum string value, plus
the current phase code weight times phase-local progress / 100, expressed as a
percentage rounded to one decimal. -/
def amended_overall_progress (cur : AnalysisStep) (p : ℚ) : ℚ :=
  pyRound1
    (((((allSteps.takeWhile (fun s => s ≠ cur)).filter (fun s => pyLt s cur)).map codeWeight).sum
      + codeWeight cur * p / 100) * 100)

/-- Modelled from the spec: `estimateRemaining()` per spec §4.2 — the half-way
point of the current phase expected-duration range minus elapsed time in the
phase, floored at zero, plus the sum of mid-point durations of all phases
after the current one in the declared order; null once in Completed.  The
duration ranges themselves are not enumerated in the spec, so the source
`step_estimates` table is used for them. -/
def spec_estimate_remaining (cur : AnalysisStep) (elapsed : ℚ) : Option ℚ :=
  if cur = .completed then none
  else
    some (max 0 (stepMid cur - elapsed)
      + (((allSteps.dropWhile (fun s => s ≠ cur)).tail.filter (fun s => s ≠ .completed)).map stepMid).sum)

/-- The amended statement of claim C9: the estimate is the half-way point of
the current phase range minus the elapsed time in the phase, floored at zero,
plus the sum of the mid-points of the phases whose enum string value is
lexicographically greater than the current one (`COMPLETED` contributing 0),
the total being returned when positive and null otherwise; and it is null
whenever the phase is Completed. -/
def amended_estimate_remaining (cur : AnalysisStep) (elapsed : ℚ) : Option ℚ :=
  if cur = .completed then none
  else
    let total := max 0 (stepMid cur - elapsed)
      + ((allSteps.filter (fun s => pyLt cur s)).map stepMid).sum
    if 0 < total then some total else none

/-! ## Temp-file store (src/api/utils/memory_file_handler.py)

`MemoryFileHandler.temp_files` is a dict keyed by fresh uuid4 file ids; it is
modelled as the list of live file ids (the path/dir/timestamp payload plays no
role in the claims). -/

/-- The set of live temp-file handles, in insertion order. -/
abbrev TempStore := List String

/-- `MemoryFileHandler.save_to_temp` (memory_file_handler.py 24-74): creates a
fresh directory and file and records the handle.  The generated uuid is passed
in as `fileId`; freshness is a hypothesis where a claim needs it. -/
def save_to_temp (store : TempStore) (fileId : String) : TempStore :=
  fileId :: store

/-- `MemoryFileHandler.cleanup_file` (memory_file_handler.py 80-116): removes
the handle and returns `true` when it is known, otherwise logs and returns
`false` without touching anything — double release is a safe no-op. -/
def cleanup_file (store : TempStore) (fileId : String) : TempStore × Bool :=
  if fileId ∈ store then (store.erase fileId, true) else (store, false)

/-! ## Fire-and-wait flow (src/api/endpoints/analysis_sync.py) -/

/-- How the awaited engine call of the sync endpoint ends: the service call
returns, raises, or `asyncio.wait_for` hits the deadline. -/
inductive SyncOutcome where
  | success
  | engineFailure
  | timeoutHit
deriving DecidableEq, Repr

/-- Observable residue of one `analyze_audio_sync` request: the final temp
store, the number of `cleanup_file` invocations made with the job's file id,
and the resulting HTTP status code. -/
structure SyncRun where
  store : TempStore
  cleanupCalls : ℕ
  httpStatus : ℕ
deriving DecidableEq, Repr

/-- `analyze_audio_sync` (analysis_sync.py 230-330) along the four exit paths
of claim C2 (the timeout form parameter is assumed in range).
* validation failure: `HTTPException(422)` is raised before `save_to_temp`;
  the `except HTTPException` handler sees `file_id = None` and releases
  nothing (lines 252-254, 316-320);
* success: one cleanup at line 297;
* engine failure: the exception reaches `except Exception`, one cleanup at
  line 324, re-raised as 500;
* timeout: cleanup at line 288, then `HTTPException(504)` is raised and the
  `except HTTPException` handler at line 316 finds `file_id` set and calls
  cleanup a second time (line 319). -/
def analyze_audio_sync (store0 : TempStore) (fileId : String) (validOk : Bool)
    (outcome : SyncOutcome) : SyncRun :=
  if ¬ validOk then
    ⟨store0, 0, 422⟩
  else
    let store1 := save_to_temp store0 fileId
    match outcome with
    | .success =>
      let c1 := cleanup_file store1 fileId
      ⟨c1.1, 1, 200⟩
    | .engineFailure =>
      let c1 := cleanup_file store1 fileId
      ⟨c1.1, 1, 500⟩
    | .timeoutHit =>
      let c1 := cleanup_file store1 fileId
      let c2 := cleanup_file c1.1 fileId
      ⟨c2.1, 2, 504⟩

/-! ## Submit-and-poll flow (src/api/endpoints/analysis_async.py) -/

/-- Status values stored in `async_tasks[task_id]["status"]`. -/
inductive AsyncStatus where
  | pending
  | processing
  | completed
  | failed
deriving DecidableEq, Repr

/-- The fields of an `async_tasks` record that the claims mention.  The
translated result payload is carried abstractly as a `String`. -/
structure AsyncTask where
  status : AsyncStatus
  progress : ℚ
  result : Option String
  error : Option String
deriving DecidableEq, Repr

/-- The record created by `submit_analysis_task` (analysis_async.py 209-225):
status pending, progress 0, no result, no error. -/
def asyncTaskInit : AsyncTask :=
  ⟨.pending, 0, none, none⟩

/-- Number of parameters of
`AnalysisService.analyze_single_file_with_progress` besides `self`
(analysis_service.py 51-56): `file_path`, `request`, `request_id`. -/
def serviceParamCount : ℕ := 3

/-- Number of positional arguments the async driver passes to that method
besides the receiver (analysis_async.py 558-563): `file_path`, `request`,
`request_id`, and a progress-callback lambda. -/
def driverArgCount : ℕ := 4

/-- Python positional call: when the argument count differs from the callee's
parameter count the call itself raises `TypeError` and the body never runs. -/
def pyCall (params args : ℕ) (body : Except String String) : Except String String :=
  if args = params then body else .error "TypeError: wrong number of positional arguments"

/-- `_process_async_analysis_task` (analysis_async.py 532-604).  `engine` is
the outcome the service call would produce if it were entered (the translated
result payload on success, the exception text on failure); the `finally`
block releases the temp handle exactly once on every branch. -/
def process_async_analysis_task (engine : Except String String) (t0 : AsyncTask)
    (store : TempStore) (fileId : String) : AsyncTask × TempStore × ℕ :=
  let t1 := { t0 with status := .processing, progress := 5 }
  let t2 :=
    match pyCall serviceParamCount driverArgCount engine with
    | .ok r => { t1 with status := .completed, progress := 100, result := some r }
    | .error e => { t1 with status := .failed, error := some e }
  let c := cleanup_file store fileId
  (t2, c.1, 1)

/-- One submit-and-poll job end to end for claim C2: the submit endpoint
materializes the file (analysis_async.py 184) and the background driver
releases it in its `finally` block. -/
def asyncJobFlow (store0 : TempStore) (fileId : String) (engine : Except String String)
    (t0 : AsyncTask) : AsyncTask × TempStore × ℕ :=
  process_async_analysis_task engine t0 (save_to_temp store0 fileId) fileId

/-! ## Batch flow (src/api/endpoints/analysis_batch.py) -/

/-- An uploaded file as the batch submit endpoint sees it: its name and the
outcome of the external `validate_audio_file` call. -/
structure BatchUpload where
  filename : String
  validatorOk : Bool
deriving DecidableEq, Repr

/-- A raised Python exception inside `submit_batch_analysis`: either an
explicit `HTTPException(status, detail)` or a `NameError` for an unbound
name. -/
inductive PyExc where
  | http : ℕ → String → PyExc
  | nameError : String → PyExc
deriving DecidableEq, Repr

/-- HTTP error surfaced to the caller. -/
structure HttpError where
  status : ℕ
  detail : String
deriving DecidableEq, Repr

/-- Whether the name `validified_files` is bound anywhere in module
`api.endpoints.analysis_batch`.  The module assigns `validated_files`
(line 333) but the zero-valid-files check at line 376 reads
`validified_files`, which no import (lines 6-22) and no assignment in the
module defines. -/
def validifiedFilesBound : Bool := false

/-- The batch record created at analysis_batch.py 419-454, reduced to the
fields the claims mention. -/
structure BatchRecord where
  fileCount : ℕ
  validFiles : List String
  invalidFiles : List String
deriving DecidableEq, Repr

/-- The `try` body of `submit_batch_analysis` (analysis_batch.py 309-478):
count and priority checks, per-file validation splitting the uploads into
`validated_files` and `invalid_files`, then the zero-valid-files check of
line 376 — which reads the unbound name `validified_files` and therefore
raises `NameError` before comparing anything. -/
def submitBatchBody (files : List BatchUpload) (priority : Int) : Except PyExc BatchRecord :=
  if files.length = 0 then .error (.http 400 "at least one file required")
  else if files.length > 50 then .error (.http 400 "at most 50 files")
  else if ¬ (priority = 1 ∨ priority = 2 ∨ priority = 3) then
    .error (.http 400 "priority must be 1, 2 or 3")
  else
    let validated := files.filter (fun f => f.validatorOk)
    let invalid := files.filter (fun f => ¬ f.validatorOk)
    if validifiedFilesBound then
      if validated.length = 0 then
        .error (.http 400 "no valid audio files")
      else
        .ok ⟨validated.length, validated.map (fun f => f.filename),
             invalid.map (fun f => f.filename)⟩
    else
      .error (.nameError "validified_files")

/-- `submit_batch_analysis` (analysis_batch.py 240-490).  The surrounding
`except Exception` handler (line 480) catches every exception raised in the
body — the `HTTPException`s included — and re-raises it as
`HTTPException(500, "创建批量任务失败: …")`.  A `.ok` value is the only case in
which a batch record is stored in `batch_tasks`. -/
def submit_batch_analysis (files : List BatchUpload) (priority : Int) :
    Except HttpError BatchRecord :=
  match submitBatchBody files priority with
  | .ok r => .ok r
  | .error _ => .error ⟨500, "batch task creation failed"⟩

/-- Status values stored in `batch_tasks[task_id]["status"]`. -/
inductive BatchStatus where
  | pending
  | processing
  | completed
  | failed
  | cancelled
deriving DecidableEq, Repr

/-- The fields of a `batch_tasks` record touched by the driver and the cancel
endpoint.  `results` records, in insertion order, the per-file success flag
written into `progress["results"]`. -/
structure BatchTask where
  status : BatchStatus
  currentFile : Option String
  completedFiles : List String
  failedFiles : List String
  results : List (String × Bool)
  completedCount : ℕ
  failedCount : ℕ
  overallProgress : ℚ
deriving DecidableEq, Repr

/-- The record as created by `submit_batch_analysis` (lines 419-454): status
pending, empty progress. -/
def batchTaskInit : BatchTask :=
  ⟨.pending, none, [], [], [], 0, 0, 0⟩

/-- `cancel_or_delete_batch_task` on a live task (analysis_batch.py 799-802):
a batch in pending or processing state is marked cancelled; otherwise the
record is unchanged (the delete branch does not apply to a running batch). -/
def cancel_or_delete_batch_task (t : BatchTask) : BatchTask :=
  if t.status = .pending ∨ t.status = .processing then
    { t with status := .cancelled }
  else t

/-- Whether the name `Path` is bound in module
`api.endpoints.analysis_batch`: the module imports (lines 6-22) bring in
`time`, `uuid`, typing names, `datetime`, FastAPI names, `structlog`, the
model types, `AnalysisService`, `validate_audio_file`, `get_audio_duration`
and `memory_file_handler` — `pathlib.Path` is not among them and nothing else
defines `Path`. -/
def pathBoundInBatchModule : Bool := false

/-- The per-item body of the batch driver loop (analysis_batch.py 525-569,
inside the per-item `try`): it evaluates `Path(file_info["temp_path"])`
(line 557) before calling `analysis_service.analyze_single_file`.  `Path`
being unbound in the module, a `NameError` is raised there regardless of what
the engine would do; `engine` gives the outcome the analysis call would
produce if it were reached. -/
def batchItemBody (engine : String → Except String Unit) (filename : String) :
    Except String Unit :=
  if pathBoundInBatchModule then engine filename
  else .error "NameError: name Path is not defined"

/-- The `for` loop of `_process_batch_analysis_task` (analysis_batch.py
524-591) over the enumerated accepted files.  `attempt` is the per-item body;
`cont` is `request_params["continue_on_error"]`; `cancelBefore i` states that
the cancel endpoint runs between the start of the loop and item `i` (the
driver itself never reads `task["status"]`).  On item failure the error is
recorded and, when `cont` is false, the loop breaks. -/
def batchLoop (attempt : String → Except String Unit) (cont : Bool)
    (cancelBefore : ℕ → Bool) (total : ℕ) :
    List (ℕ × String) → BatchTask → BatchTask
  | [], t => t
  | (i, fname) :: rest, t =>
    let t := if cancelBefore i then cancel_or_delete_batch_task t else t
    let t := { t with
      currentFile := some fname
      completedCount := t.completedFiles.length
      failedCount := t.failedFiles.length
      overallProgress := (i : ℚ) / (total : ℚ) * 100 }
    match attempt fname with
    | .ok _ =>
      batchLoop attempt cont cancelBefore total rest
        { t with
          results := t.results ++ [(fname, true)]
          completedFiles := t.completedFiles ++ [fname] }
    | .error _ =>
      let t := { t with
        results := t.results ++ [(fname, false)]
        failedFiles := t.failedFiles ++ [fname] }
      if cont then batchLoop attempt cont cancelBefore total rest t else t

/-- `_process_batch_analysis_task` (analysis_batch.py 492-624): mark the task
processing, run the per-item loop, then — the loop having no exit other than
exhaustion or `break` — unconditionally mark the task completed with overall
progress 100.0 and no current file (lines 593-599).  Nothing in the driver
reads a cancelled status. -/
def process_batch_analysis_task (attempt : String → Except String Unit) (cont : Bool)
    (cancelBefore : ℕ → Bool) (files : List String) (t0 : BatchTask) : BatchTask :=
  let t1 := { t0 with status := .processing }
  let t2 := batchLoop attempt cont cancelBefore files.length files.enum t1
  { t2 with
    status := .completed
    currentFile := none
    overallProgress := 100 }

/-- Rounding to one decimal is the identity on rationals with one decimal
digit. -/
theorem pyRound1_int (x : ℚ) (n : ℤ) (h : 10 * x = (n : ℚ)) : pyRound1 x = x := by
  unfold pyRound1
  rw [h, show ((n : ℚ) + 1/2 : ℚ) = (1/2 : ℚ) + (n : ℤ) by ring,
     Int.floor_add_int,
     show ⌊(1/2 : ℚ)⌋ = 0 by rw [Int.floor_eq_zero_iff]; constructor <;> norm_num]
  rw [zero_add]
  field_simp
  linarith

/-- Claim C1 (code bug): along the forward update sequence
feature_extraction at 100 percent, then beat_tracking at 0 percent, the
tracker's overall progress drops from 33.0 to 25.0 although the job is
non-terminal, and completing the tracker afterwards sets overall progress to
140.0 rather than 100 — refuting both the monotonicity and the
equals-100-iff-Completed halves of the claimed invariant. -/
theorem C1_overall_progress_invariant_fails :
    (update_step Tracker.init .feature_extraction 100).overall_progress = 33
    ∧ (update_step (update_step Tracker.init .feature_extraction 100) .beat_tracking 0).overall_progress = 25
    ∧ (update_step (update_step Tracker.init .feature_extraction 100) .beat_tracking 0).current_step ≠ .completed
    ∧ ((update_step (update_step Tracker.init .feature_extraction 100) .beat_tracking 0).complete).overall_progress = 140 := by
  refine ⟨?_, ?_, by simp [update_step], ?_⟩
  · simp +decide [update_step, calculate_overall_progress, calcLoop, stepWeightList, pyLt, AnalysisStep.value]
    norm_num
    exact pyRound1_int 33 330 (by norm_num)
  · simp +decide [update_step, calculate_overall_progress, calcLoop, stepWeightList, pyLt, AnalysisStep.value]
    exact pyRound1_int 25 250 (by norm_num)
  · simp +decide [Tracker.complete, update_step, calculate_overall_progress, calcLoop, stepWeightList, pyLt, AnalysisStep.value]
    norm_num
    exact pyRound1_int 140 1400 (by norm_num)

/-- Claim C4, counterexample: at current phase BeatTracking with phase-local
progress 0 the code computes 25.0 while the claimed formula over the declared
phase list gives 57.0. -/
theorem C4_overall_progress_formula_cex :
    calculate_overall_progress .beat_tracking 0 = 25
    ∧ spec_overall_progress .beat_tracking 0 = 57
    ∧ calculate_overall_progress .beat_tracking 0 ≠ spec_overall_progress .beat_tracking 0 := by
  have h1 : calculate_overall_progress .beat_tracking 0 = 25 := by
    simp +decide [calculate_overall_progress, calcLoop, stepWeightList, pyLt, AnalysisStep.value]
    exact pyRound1_int 25 250 (by norm_num)
  have h2 : spec_overall_progress .beat_tracking 0 = 57 := by
    simp +decide [spec_overall_progress, spec_phaseWeights, List.takeWhile, List.lookup]
    norm_num
    exact pyRound1_int 57 570 (by norm_num)
  refine ⟨h1, h2, by rw [h1, h2]; norm_num⟩

/-- Claim C4, amended: overall progress equals the sum of the code weights of
the phases both strictly before the current phase in declaration order and
lexicographically smaller by enum string value, plus the current phase code
weight times the phase-local progress over 100, as a percentage rounded to one
decimal. -/
theorem C4_overall_progress_formula_amended (cur : AnalysisStep) (p : ℚ) :
    calculate_overall_progress cur p = amended_overall_progress cur p := by
  cases cur <;>
    simp +decide [calculate_overall_progress, amended_overall_progress, calcLoop,
      stepWeightList, allSteps, pyLt, AnalysisStep.value, codeWeight] <;>
    (congr 1; ring)

/-- Claim C8, counterexample: from current phase BeatTracking (local progress
50, overall 32.5) the update to the strictly earlier phase AudioSeparation is
silently accepted: the current phase changes and overall progress falls to
0.0. -/
theorem C8_backward_update_cex :
    ((update_step (update_step Tracker.init .beat_tracking 50) .audio_separation 0).current_step
        ≠ (update_step Tracker.init .beat_tracking 50).current_step)
    ∧ (update_step (update_step Tracker.init .beat_tracking 50) .audio_separation 0).overall_progress
        < (update_step Tracker.init .beat_tracking 50).overall_progress := by
  constructor
  · simp [update_step]
  · have h1 : (update_step (update_step Tracker.init .beat_tracking 50) .audio_separation 0).overall_progress = 0 := by
      simp +decide [update_step, calculate_overall_progress, calcLoop, stepWeightList, pyLt, AnalysisStep.value]
      exact pyRound1_int 0 0 (by norm_num)
    have h2 : (update_step Tracker.init .beat_tracking 50).overall_progress = 65/2 := by
      simp +decide [update_step, calculate_overall_progress, calcLoop, stepWeightList, pyLt, AnalysisStep.value]
      norm_num
      exact pyRound1_int (65/2) 325 (by norm_num)
    rw [h1, h2]; norm_num

/-- Position of a step in the enum declaration order. -/
def declaredIdx : AnalysisStep → ℕ
  | .initializing => 0
  | .loading_model => 1
  | .audio_separation => 2
  | .spectrogram_extraction => 3
  | .feature_extraction => 4
  | .beat_tracking => 5
  | .segment_analysis => 6
  | .generating_results => 7
  | .saving_outputs => 8
  | .completed => 9

/-- Claim C8, amended: `update_step` performs no phase-order check — an update
naming a phase strictly earlier in the declared order is silently accepted,
the tracker's current phase becoming that earlier phase. -/
theorem C8_backward_update_amended (t : Tracker) (s : AnalysisStep) (p : ℚ)
    (h : declaredIdx s < declaredIdx t.current_step) :
    (update_step t s p).current_step = s
    ∧ declaredIdx (update_step t s p).current_step < declaredIdx t.current_step := by
  exact ⟨rfl, by simpa [update_step] using h⟩

/-- Witness for the amended claim C8 at a concrete backward update. -/
theorem C8_backward_update_amended_witness :
    declaredIdx .audio_separation < declaredIdx (update_step Tracker.init .beat_tracking 50).current_step
    ∧ (update_step (update_step Tracker.init .beat_tracking 50) .audio_separation 0).current_step = .audio_separation :=
  ⟨by simp [update_step, declaredIdx], (C8_backward_update_amended (update_step Tracker.init .beat_tracking 50) .audio_separation 0 (by simp [update_step, declaredIdx])).1⟩

/-- Claim C9, counterexample: at current phase SavingOutputs with 2 seconds
elapsed the code returns 24 remaining seconds (the string-ordered "later"
steps SegmentAnalysis and SpectrogramExtraction), while the claimed
declared-order formula gives 0. -/
theorem C9_estimate_remaining_cex :
    estimate_remaining_time .saving_outputs 2 = some 24
    ∧ spec_estimate_remaining .saving_outputs 2 = some 0
    ∧ estimate_remaining_time .saving_outputs 2 ≠ spec_estimate_remaining .saving_outputs 2 := by
  have h1 : estimate_remaining_time .saving_outputs 2 = some 24 := by
    simp +decide [estimate_remaining_time, allSteps, pyLt, AnalysisStep.value, stepEstimates]
    norm_num
  have h2 : spec_estimate_remaining .saving_outputs 2 = some 0 := by
    simp +decide [spec_estimate_remaining, allSteps, stepMid, stepEstimates]
    norm_num
  refine ⟨h1, h2, by rw [h1, h2]; simp⟩

/-- Claim C9, amended: the estimate equals the mid-point of the current phase
range minus the elapsed time floored at zero, plus the mid-points of the
phases whose enum string value is lexicographically greater, returned when
positive and null otherwise — and null whenever the phase is Completed. -/
theorem C9_estimate_remaining_amended (cur : AnalysisStep) (e : ℚ) :
    estimate_remaining_time cur e = amended_estimate_remaining cur e := by
  cases cur <;>
    simp +decide [estimate_remaining_time, amended_estimate_remaining, allSteps,
      pyLt, AnalysisStep.value, stepEstimates, stepMid] <;>
    norm_num

/-- Claim C2, counterexample: on the timeout exit path of the fire-and-wait
flow the handle release is invoked twice — once before raising the 504 and
once again in the `except HTTPException` handler — not exactly once. -/
theorem C2_release_exactly_once_cex :
    (analyze_audio_sync [] "f1" true .timeoutHit).cleanupCalls = 2
    ∧ (analyze_audio_sync [] "f1" true .timeoutHit).cleanupCalls ≠ 1 := by
  constructor <;> simp [analyze_audio_sync, save_to_temp, cleanup_file]

/-- Claim C2, amended: whenever a handle was created it is released at least
once and the temp store returns exactly to its pre-job contents on every
outcome; the release count is one on success and engine failure, two on the
timeout path (the second being a safe no-op), zero on validation failure
(where no handle was ever created), and exactly one in the submit-and-poll
driver whatever the engine outcome. -/
theorem C2_release_amended (store0 : TempStore) (fileId : String) (validOk : Bool)
    (outcome : SyncOutcome) (engine : Except String String) (t0 : AsyncTask)
    (hfresh : fileId ∉ store0) :
    (analyze_audio_sync store0 fileId validOk outcome).store = store0
    ∧ (analyze_audio_sync store0 fileId true .success).cleanupCalls = 1
    ∧ (analyze_audio_sync store0 fileId true .engineFailure).cleanupCalls = 1
    ∧ (analyze_audio_sync store0 fileId true .timeoutHit).cleanupCalls = 2
    ∧ (analyze_audio_sync store0 fileId false outcome).cleanupCalls = 0
    ∧ (asyncJobFlow store0 fileId engine t0).2.1 = store0
    ∧ (asyncJobFlow store0 fileId engine t0).2.2 = 1 := by
  refine ⟨?_, by simp [analyze_audio_sync, save_to_temp, cleanup_file],
    by simp [analyze_audio_sync, save_to_temp, cleanup_file],
    by simp [analyze_audio_sync, save_to_temp, cleanup_file, hfresh],
    by simp [analyze_audio_sync],
    by simp [asyncJobFlow, process_async_analysis_task, save_to_temp, cleanup_file],
    by simp [asyncJobFlow, process_async_analysis_task, save_to_temp, cleanup_file]⟩
  cases validOk
  · simp [analyze_audio_sync]
  · cases outcome <;> simp [analyze_audio_sync, save_to_temp, cleanup_file, hfresh]

/-- Witness for the amended claim C2 at a concrete fresh handle. -/
theorem C2_release_amended_witness :
    ("f1" ∉ ([] : TempStore))
    ∧ ((analyze_audio_sync [] "f1" true .timeoutHit).store = []
      ∧ (analyze_audio_sync [] "f1" true .success).cleanupCalls = 1
      ∧ (analyze_audio_sync [] "f1" true .engineFailure).cleanupCalls = 1
      ∧ (analyze_audio_sync [] "f1" true .timeoutHit).cleanupCalls = 2
      ∧ (analyze_audio_sync [] "f1" false .timeoutHit).cleanupCalls = 0
      ∧ (asyncJobFlow [] "f1" (.ok "payload") asyncTaskInit).2.1 = []
      ∧ (asyncJobFlow [] "f1" (.ok "payload") asyncTaskInit).2.2 = 1) :=
  ⟨by simp,
   C2_release_amended [] "f1" true .timeoutHit (.ok "payload") asyncTaskInit (by simp)⟩

/-- Claim C7 (code bug): the async driver invokes
`analyze_single_file_with_progress` with four positional arguments while the
method takes three, so the call raises `TypeError` before the engine runs:
every submitted async job ends `failed`, whatever the engine outcome would
have been — a successful engine run is not reachable through this driver. -/
theorem C7_async_success_unreachable (engine : Except String String) (t0 : AsyncTask)
    (store : TempStore) (fileId : String) :
    (process_async_analysis_task engine t0 store fileId).1.status = .failed
    ∧ (process_async_analysis_task (.ok "payload") t0 store fileId).1.status ≠ .completed
    ∧ (process_async_analysis_task (.ok "payload") t0 store fileId).1.result = t0.result := by
  refine ⟨?_, ?_, ?_⟩ <;>
    simp [process_async_analysis_task, pyCall, serviceParamCount, driverArgCount]

/-- Claim C3 (code bug): the zero-valid-files check reads the unbound name
`validified_files`, so batch submission — in particular one whose only file
was rejected by validation — raises `NameError`, is re-wrapped by the
catch-all handler and surfaces as HTTP 500, not as the dedicated 400
no-valid-input rejection; no batch record is created on any call. -/
theorem C3_zero_valid_files_gives_500 :
    submit_batch_analysis [⟨"bad.txt", false⟩] 2 = .error ⟨500, "batch task creation failed"⟩
    ∧ ∀ (files : List BatchUpload) (priority : Int),
        submit_batch_analysis files priority = .error ⟨500, "batch task creation failed"⟩ := by
  have key : ∀ (files : List BatchUpload) (priority : Int),
      submit_batch_analysis files priority = .error ⟨500, "batch task creation failed"⟩ := by
    intro files priority
    unfold submit_batch_analysis submitBatchBody
    simp only [validifiedFilesBound, Bool.false_eq_true, if_false]
    split
    · rename_i heq
      repeat' split at heq
      all_goals simp_all
    · rfl
  exact ⟨key _ _, key⟩

/-- Claim C5 (code bug): the batch driver never reads the cancelled status.
With two accepted files and a cancellation arriving between item 0 and item 1,
item 1 is still started and recorded, and the driver then overwrites the
cancelled status with completed. -/
theorem C5_cancellation_not_checked :
    (process_batch_analysis_task (batchItemBody (fun _ => .ok ())) true
        (fun i => i = 1) ["a.wav", "b.wav"] batchTaskInit).failedFiles = ["a.wav", "b.wav"]
    ∧ (process_batch_analysis_task (batchItemBody (fun _ => .ok ())) true
        (fun i => i = 1) ["a.wav", "b.wav"] batchTaskInit).status = .completed := by
  constructor <;>
    simp +decide [process_batch_analysis_task, batchLoop, batchItemBody,
      pathBoundInBatchModule, cancel_or_delete_batch_task, batchTaskInit,
      List.enum, List.enumFrom]

/-- Claim C6 (code bug): the per-item body evaluates `Path(...)` with `Path`
unbound in the module, so every item raises `NameError` before the engine is
invoked.  On files A, B, C with an engine that would succeed on A and C and
fail on B, continue-on-error true yields no completed files and all three
failed; continue-on-error false stops after A with only A recorded. -/
theorem C6_every_batch_item_fails :
    (process_batch_analysis_task
        (batchItemBody (fun f => if f = "B.wav" then .error "engine failure" else .ok ()))
        true (fun _ => false) ["A.wav", "B.wav", "C.wav"] batchTaskInit).completedFiles = []
    ∧ (process_batch_analysis_task
        (batchItemBody (fun f => if f = "B.wav" then .error "engine failure" else .ok ()))
        true (fun _ => false) ["A.wav", "B.wav", "C.wav"] batchTaskInit).failedFiles
        = ["A.wav", "B.wav", "C.wav"]
    ∧ (process_batch_analysis_task
        (batchItemBody (fun f => if f = "B.wav" then .error "engine failure" else .ok ()))
        false (fun _ => false) ["A.wav", "B.wav", "C.wav"] batchTaskInit).completedFiles = []
    ∧ (process_batch_analysis_task
        (batchItemBody (fun f => if f = "B.wav" then .error "engine failure" else .ok ()))
        false (fun _ => false) ["A.wav", "B.wav", "C.wav"] batchTaskInit).failedFiles
        = ["A.wav"] := by
  refine ⟨?_, ?_, ?_, ?_⟩ <;>
    simp +decide [process_batch_analysis_task, batchLoop, batchItemBody,
      pathBoundInBatchModule, batchTaskInit, List.enum, List.enumFrom]

/-- Claim C10 (implicit, confirmed): whenever the per-item loop exits — by
exhaustion or by the continue-on-error break, whatever the item outcomes and
whenever a cancellation was recorded between items — the driver
unconditionally sets the batch status to completed, the overall progress to
100.0 and the current file to none, overwriting a previously recorded
cancelled status. -/
theorem C10_driver_unconditionally_completes (attempt : String → Except String Unit)
    (cont : Bool) (cancelBefore : ℕ → Bool) (files : List String) (t0 : BatchTask) :
    (process_batch_analysis_task attempt cont cancelBefore files t0).status = .completed
    ∧ (process_batch_analysis_task attempt cont cancelBefore files t0).overallProgress = 100
    ∧ (process_batch_analysis_task attempt cont cancelBefore files t0).currentFile = none :=
  ⟨rfl, rfl, rfl⟩
